import Mathlib

/-!
Shallow embedding of the medalyst/ticketing application: the validation
middleware, the ticket and comment routes of the backend revision, the
comment routes of the alternative revision, and the login route.
Strings are modelled by their character lists; request bodies carry
optional string fields (absent JSON field = `none`); the document store
is a list of records; a route handler is a function from the store and
the request data to a response (and the new store for mutations).
-/

namespace Ticketing

/-- ASCII lowercase conversion of one character, as JavaScript
`toLowerCase` and Mongo case-insensitive matching behave on ASCII. -/
def lowerChar (c : Char) : Char :=
  if 65 ≤ c.toNat ∧ c.toNat ≤ 90 then Char.ofNat (c.toNat + 32) else c

/-- Whitespace test used by string trimming (space, tab, LF, CR). -/
def isWs (c : Char) : Bool :=
  c.toNat == 32 || c.toNat == 9 || c.toNat == 10 || c.toNat == 13

/-- Drop leading and trailing whitespace from a character list. -/
def trimList (l : List Char) : List Char :=
  ((l.dropWhile isWs).reverse.dropWhile isWs).reverse

/-- JavaScript `String.prototype.trim`: removes leading and trailing
whitespace. -/
def jsTrim (s : String) : String := ⟨trimList s.data⟩

/-- Membership in the character class of letters, digits, underscore and
hyphen used by the username pattern. -/
def isUsernameChar (c : Char) : Bool :=
  (97 ≤ c.toNat && c.toNat ≤ 122) || (65 ≤ c.toNat && c.toNat ≤ 90) ||
    (48 ≤ c.toNat && c.toNat ≤ 57) || c.toNat == 95 || c.toNat == 45

/-- Full-string match of the anchored pattern of one or more username
characters: the string is nonempty and every character is in the class. -/
def matchesUsernameRegex (s : String) : Bool :=
  !s.data.isEmpty && s.data.all isUsernameChar

/-- Case-insensitive substring containment: the Mongo title condition
`$regex: search` with option `i`, modelled for literal search strings
(no regex metacharacters), which is what every claim instance uses. -/
def containsCI (haystack pat : String) : Bool :=
  decide ((pat.data.map lowerChar) <:+: (haystack.data.map lowerChar))

/-- Hexadecimal digit test. -/
def isHexChar (c : Char) : Bool :=
  (48 ≤ c.toNat && c.toNat ≤ 57) || (97 ≤ c.toNat && c.toNat ≤ 102) ||
    (65 ≤ c.toNat && c.toNat ≤ 70)

/-- The ObjectId shape test of the ticket list route: exactly 24
hexadecimal characters. -/
def isObjectIdShape (s : String) : Bool :=
  s.length == 24 && s.data.all isHexChar

/-- JavaScript truthiness of an optional string field: present and
nonempty. -/
def truthy (o : Option String) : Bool :=
  match o with
  | none => false
  | some s => !(s == "")

/-- JavaScript `value or default` on an optional string: the default is
taken when the field is absent or the empty string. -/
def jsOr (o : Option String) (dflt : String) : String :=
  match o with
  | none => dflt
  | some s => if s == "" then dflt else s

/-- Result record returned by every validator in the validation
middleware. -/
structure ValidationResult where
  isValid : Bool
  error : Option String := none
deriving Repr, DecidableEq

/-- Backend `validateUsername` from the validation middleware: requires a
nonempty string, trims it, then checks the length bounds and the
character-class pattern on the trimmed string. -/
def validateUsername (username : String) : ValidationResult :=
  if username == "" then ⟨false, some "Username is required"⟩
  else
    let trimmedUsername := jsTrim username
    if trimmedUsername.length < 3 then
      ⟨false, some "Username must be at least 3 characters long"⟩
    else if trimmedUsername.length > 20 then
      ⟨false, some "Username must be less than 20 characters"⟩
    else if !matchesUsernameRegex trimmedUsername then
      ⟨false, some "Username can only contain letters, numbers, underscores, and hyphens"⟩
    else ⟨true, none⟩

/-- Frontend `validateUsername` from the client validation utilities: it
requires the trimmed string to be nonempty but applies the length bounds
and the character-class pattern to the untrimmed input. -/
def frontendValidateUsername (username : String) : ValidationResult :=
  if jsTrim username == "" then ⟨false, some "Username is required"⟩
  else if username.length < 3 then
    ⟨false, some "Username must be at least 3 characters long"⟩
  else if username.length > 20 then
    ⟨false, some "Username must be less than 20 characters"⟩
  else if !matchesUsernameRegex username then
    ⟨false, some "Username can only contain letters, numbers, underscores, and hyphens"⟩
  else ⟨true, none⟩

/-- Backend `validatePassword`: length bounds and the lookahead pattern
requiring at least one letter and one digit. -/
def validatePassword (password : String) : ValidationResult :=
  if password == "" then ⟨false, some "Password is required"⟩
  else if password.length < 6 then
    ⟨false, some "Password must be at least 6 characters long"⟩
  else if password.length > 100 then
    ⟨false, some "Password must be less than 100 characters"⟩
  else if !(password.data.any (fun c =>
        (97 ≤ c.toNat && c.toNat ≤ 122) || (65 ≤ c.toNat && c.toNat ≤ 90)) &&
      password.data.any (fun c => 48 ≤ c.toNat && c.toNat ≤ 57)) then
    ⟨false, some "Password must contain at least one letter and one number"⟩
  else ⟨true, none⟩

/-- Backend `validateTicketTitle`: the title must be present (an absent
JSON field and the empty string are both falsy), and its trimmed form
must have length between 3 and 100. -/
def validateTicketTitle (title : Option String) : ValidationResult :=
  match title with
  | none => ⟨false, some "Title is required"⟩
  | some t =>
    if t == "" then ⟨false, some "Title is required"⟩
    else
      let trimmedTitle := jsTrim t
      if trimmedTitle.length < 3 then
        ⟨false, some "Title must be at least 3 characters long"⟩
      else if trimmedTitle.length > 100 then
        ⟨false, some "Title must be less than 100 characters"⟩
      else ⟨true, none⟩

/-- Backend `validateTicketDescription`: a truthy description longer than
1000 characters is rejected; anything else is accepted. -/
def validateTicketDescription (description : Option String) : ValidationResult :=
  match description with
  | none => ⟨true, none⟩
  | some d =>
    if !(d == "") && d.length > 1000 then
      ⟨false, some "Description must be less than 1000 characters"⟩
    else ⟨true, none⟩

/-- The three legal ticket statuses. -/
def validStatuses : List String := ["OPEN", "IN_PROGRESS", "CLOSED"]

/-- Backend `validateTicketStatus`: a truthy status outside the legal
list is rejected; an absent or empty status is accepted here. -/
def validateTicketStatus (status : Option String) : ValidationResult :=
  match status with
  | none => ⟨true, none⟩
  | some s =>
    if !(s == "") && !(validStatuses.contains s) then
      ⟨false, some "Status must be OPEN, IN_PROGRESS, or CLOSED"⟩
    else ⟨true, none⟩

/-- Backend `validateComment`: content must be present, nonblank after
trimming, and at most 500 characters after trimming. -/
def validateComment (content : Option String) : ValidationResult :=
  match content with
  | none => ⟨false, some "Comment content is required"⟩
  | some c =>
    if c == "" then ⟨false, some "Comment content is required"⟩
    else
      let trimmedContent := jsTrim c
      if trimmedContent.length == 0 then ⟨false, some "Comment cannot be empty"⟩
      else if trimmedContent.length > 500 then
        ⟨false, some "Comment must be less than 500 characters"⟩
      else ⟨true, none⟩

/-- The `validateAuthRequest` middleware: returns the 400 message of the
first failing validator, or `none` when the request passes. -/
def validateAuthRequest (username password : String) : Option String :=
  let usernameValidation := validateUsername username
  if !usernameValidation.isValid then usernameValidation.error
  else
    let passwordValidation := validatePassword password
    if !passwordValidation.isValid then passwordValidation.error
    else none

/-- The body of a ticket create or update request: each field is absent
or a string. -/
structure TicketRequestBody where
  title : Option String
  description : Option String
  status : Option String
deriving Repr, DecidableEq

/-- The `validateTicketRequest` middleware: title, then description, then
status; returns the 400 message of the first failing validator. -/
def validateTicketRequest (body : TicketRequestBody) : Option String :=
  let titleValidation := validateTicketTitle body.title
  if !titleValidation.isValid then titleValidation.error
  else
    let descriptionValidation := validateTicketDescription body.description
    if !descriptionValidation.isValid then descriptionValidation.error
    else
      let statusValidation := validateTicketStatus body.status
      if !statusValidation.isValid then statusValidation.error
      else none

/-- The `validateCommentRequest` middleware. -/
def validateCommentRequest (content : Option String) : Option String :=
  let contentValidation := validateComment content
  if !contentValidation.isValid then contentValidation.error else none

/-- A ticket document as created by the backend ticket routes. -/
structure Ticket where
  id : String
  title : String
  description : Option String
  status : String
  createdBy : String
  createdAt : Nat
deriving Repr, DecidableEq

/-- An HTTP response: a success with a status code and a JSON body, or an
error with a status code and a message. -/
inductive ApiResponse (α : Type) where
  | ok (status : Nat) (body : α)
  | err (status : Nat) (message : String)
deriving Repr, DecidableEq

/-- Backend ticket create route: runs the ticket validation middleware,
then inserts a document with the trimmed title, the trimmed description
when present, the status defaulted to OPEN when falsy, and the
authenticated requester as creator.  The fresh document id and the
current time are inputs of the embedding. -/
def createTicket (store : List Ticket) (requester : String)
    (body : TicketRequestBody) (newId : String) (now : Nat) :
    ApiResponse Ticket × List Ticket :=
  match validateTicketRequest body with
  | some msg => (.err 400 msg, store)
  | none =>
    let ticket : Ticket :=
      { id := newId
        title := jsTrim (body.title.getD "")
        description := body.description.map jsTrim
        status := jsOr body.status "OPEN"
        createdBy := requester
        createdAt := now }
    (.ok 201 ticket, store ++ [ticket])

/-- The query string of the ticket list route. -/
structure ListQuery where
  search : Option String
  status : Option String
  sortBy : Option String
  sortOrder : Option String
deriving Repr, DecidableEq

/-- The Mongo filter document built by the ticket list route: the status
condition (when the status parameter is truthy) and the search
disjunction of the title condition and, for search strings of ObjectId
shape, the exact id condition (when the search parameter is truthy); a
document matches when it satisfies every top-level condition. -/
def matchesFilter (q : ListQuery) (t : Ticket) : Bool :=
  (if truthy q.status then t.status == q.status.getD "" else true) &&
  (if truthy q.search then
      containsCI t.title (q.search.getD "") ||
        (isObjectIdShape (q.search.getD "") && t.id == q.search.getD "")
    else true)

/-- Insert an element into a list in front of the first element it
compares below, the auxiliary step of sorting. -/
def insertLe (le : α → α → Bool) (a : α) : List α → List α
  | [] => [a]
  | b :: bs => if le a b then a :: b :: bs else b :: insertLe le a bs

/-- Sorting by a boolean comparison, modelling the sort applied by the
document store to a query result. -/
def sortLe (le : α → α → Bool) : List α → List α
  | [] => []
  | x :: xs => insertLe le x (sortLe le xs)

/-- Lexicographic comparison of code-point lists, the string order used
for sorting by title. -/
def lexLe : List Nat → List Nat → Bool
  | [], _ => true
  | _ :: _, [] => false
  | a :: as, b :: bs => if a < b then true else if b < a then false else lexLe as bs

/-- String comparison for the title sort key. -/
def strLeb (a b : String) : Bool :=
  lexLe (a.data.map Char.toNat) (b.data.map Char.toNat)

/-- The sort order of the ticket list route: ascending on the sort key
exactly when the sortOrder parameter equals asc, otherwise descending;
the key is creation time or title, and any other sortBy value leaves the
documents unordered. -/
def ticketLe (sortBy sortOrder : String) (a b : Ticket) : Bool :=
  let keyLe : Ticket → Ticket → Bool :=
    if sortBy == "title" then fun x y => strLeb x.title y.title
    else if sortBy == "createdAt" then fun x y => decide (x.createdAt ≤ y.createdAt)
    else fun _ _ => true
  if sortOrder == "asc" then keyLe a b else keyLe b a

/-- Backend ticket list route: filters the whole store by the Mongo
filter document and sorts by the requested key and order (sortBy
defaults to createdAt and sortOrder to desc when absent). -/
def listTickets (store : List Ticket) (q : ListQuery) : ApiResponse (List Ticket) :=
  .ok 200 (sortLe (ticketLe (q.sortBy.getD "createdAt") (q.sortOrder.getD "desc"))
    (store.filter (matchesFilter q)))

/-- Backend single ticket route: finds the ticket by id only (no
ownership condition; the requester identity is unused) and answers 404
when absent. -/
def getTicket (store : List Ticket) (requester id : String) : ApiResponse Ticket :=
  match store.find? (fun t => t.id == id) with
  | none => .err 404 "Ticket not found"
  | some t => .ok 200 t

/-- The update document built by the ticket update route: the trimmed
title when the title is truthy, the trimmed description when the
description field is present, and the status when truthy. -/
def applyUpdateData (body : TicketRequestBody) (t : Ticket) : Ticket :=
  let t1 := match body.title with
    | none => t
    | some s => if s == "" then t else { t with title := jsTrim s }
  let t2 := match body.description with
    | none => t1
    | some d => { t1 with description := some (jsTrim d) }
  match body.status with
  | none => t2
  | some s => if s == "" then t2 else { t2 with status := s }

/-- Replace the first element satisfying the test, as a Mongo
find-one-and-update does. -/
def updateFirst (p : α → Bool) (f : α → α) : List α → List α
  | [] => []
  | x :: xs => if p x then f x :: xs else x :: updateFirst p f xs

/-- Backend ticket update route: runs the ticket validation middleware,
then updates the ticket found by id only (no ownership condition; the
requester identity is unused), returning the updated document, or 404
when absent. -/
def updateTicket (store : List Ticket) (requester id : String)
    (body : TicketRequestBody) : ApiResponse Ticket × List Ticket :=
  match validateTicketRequest body with
  | some msg => (.err 400 msg, store)
  | none =>
    match store.find? (fun t => t.id == id) with
    | none => (.err 404 "Ticket not found", store)
    | some t =>
      (.ok 200 (applyUpdateData body t),
        updateFirst (fun x => x.id == id) (applyUpdateData body) store)

/-- Backend ticket delete route: find-one-and-delete on the conjunction
of the id and the creator being the requester; 404 when no such document
exists. -/
def deleteTicket (store : List Ticket) (requester id : String) :
    ApiResponse String × List Ticket :=
  match store.find? (fun t => t.id == id && t.createdBy == requester) with
  | none => (.err 404 "Ticket not found", store)
  | some _ =>
    (.ok 200 "Ticket deleted",
      store.eraseP (fun t => t.id == id && t.createdBy == requester))

/-- A comment document as used by the backend comment routes. -/
structure BComment where
  id : String
  content : String
  ticketId : String
  userId : String
  username : String
  createdAt : Nat
deriving Repr, DecidableEq

/-- Ascending creation time, the comment sort key. -/
def commentLe (a b : BComment) : Bool := decide (a.createdAt ≤ b.createdAt)

/-- Backend comment list route: 404 when no ticket with the given id
exists, otherwise the comments of that ticket sorted by ascending
creation time. -/
def listComments (tickets : List Ticket) (comments : List BComment)
    (ticketId : String) : ApiResponse (List BComment) :=
  match tickets.find? (fun t => t.id == ticketId) with
  | none => .err 404 "Ticket not found"
  | some _ =>
    .ok 200 (sortLe commentLe (comments.filter (fun c => c.ticketId == ticketId)))

/-- Backend comment delete route: finds the comment by the conjunction of
its id and its author being the requester, answering one collapsed 404
response when no such document exists (absent and not-owned are not
distinguished); on success deletes the document by id. -/
def deleteComment (comments : List BComment) (requester commentId : String) :
    ApiResponse String × List BComment :=
  match comments.find? (fun c => c.id == commentId && c.userId == requester) with
  | none => (.err 404 "Comment not found or unauthorized", comments)
  | some _ => (.ok 200 "Comment deleted", comments.eraseP (fun c => c.id == commentId))

/-- A comment document of the alternative revision: the comment model
with ticket and user references. -/
structure PComment where
  id : String
  ticket : String
  user : String
  content : String
  createdAt : Nat
deriving Repr, DecidableEq

/-- Ascending creation time for the alternative revision. -/
def pCommentLe (a b : PComment) : Bool := decide (a.createdAt ≤ b.createdAt)

/-- Comment list route of the alternative revision: returns the comments
whose ticket reference equals the given id, sorted by ascending creation
time, without checking that the ticket exists. -/
def p14GetComments (comments : List PComment) (ticketId : String) :
    ApiResponse (List PComment) :=
  .ok 200 (sortLe pCommentLe (comments.filter (fun c => c.ticket == ticketId)))

/-- Comment delete route of the alternative revision: 404 when the
comment id is absent, 401 when the requester identity is falsy, 403 when
the requester is not the author, otherwise deletes the document. -/
def p14DeleteComment (comments : List PComment) (requester commentId : String) :
    ApiResponse String × List PComment :=
  match comments.find? (fun c => c.id == commentId) with
  | none => (.err 404 "Comment not found", comments)
  | some c =>
    if requester == "" then
      (.err 401 "Unauthorized: userId not found in request", comments)
    else if !(c.user == requester) then (.err 403 "Not authorized", comments)
    else (.ok 200 "Comment deleted", comments.eraseP (fun x => x.id == commentId))

/-- A user document: the password field stores the salted hash. -/
structure User where
  id : String
  username : String
  password : String
deriving Repr, DecidableEq

/-- Login route: runs the auth validation middleware, trims the username,
finds the user, and answers one identical 401 response when the user is
absent or the hash comparison fails.  The hash comparison is a parameter
of the embedding; on success the route issues a signed token, which the
embedding abstracts by returning the public user record. -/
def login (users : List User) (compare : String → String → Bool)
    (username password : String) : ApiResponse User :=
  match validateAuthRequest username password with
  | some msg => .err 400 msg
  | none =>
    let trimmedUsername := jsTrim username
    match users.find? (fun u => u.username == trimmedUsername) with
    | none => .err 401 "Invalid username or password"
    | some user =>
      if !(compare password user.password) then .err 401 "Invalid username or password"
      else .ok 200 user

/-! Helper lemmas about the string primitives. -/

theorem dropWhile_eq_self_of_all {p : α → Bool} {l : List α}
    (h : ∀ c ∈ l, p c = false) : l.dropWhile p = l := by
  cases l with
  | nil => rfl
  | cons x xs =>
    rw [List.dropWhile_cons_of_neg]
    simp [h x (List.mem_cons_self x xs)]

theorem length_dropWhile_le (p : α → Bool) (l : List α) :
    (l.dropWhile p).length ≤ l.length := by
  induction l with
  | nil => simp
  | cons x xs ih =>
    by_cases h : p x = true
    · rw [List.dropWhile_cons_of_pos h]
      exact Nat.le_succ_of_le ih
    · rw [List.dropWhile_cons_of_neg h]

theorem trimList_eq_self {l : List Char} (h : ∀ c ∈ l, isWs c = false) :
    trimList l = l := by
  unfold trimList
  rw [dropWhile_eq_self_of_all h, dropWhile_eq_self_of_all
    (fun c hc => h c (List.mem_reverse.1 hc)), List.reverse_reverse]

theorem trimList_length_le (l : List Char) : (trimList l).length ≤ l.length := by
  unfold trimList
  calc ((l.dropWhile isWs).reverse.dropWhile isWs).reverse.length
      = ((l.dropWhile isWs).reverse.dropWhile isWs).length := List.length_reverse _
    _ ≤ (l.dropWhile isWs).reverse.length := length_dropWhile_le _ _
    _ = (l.dropWhile isWs).length := List.length_reverse _
    _ ≤ l.length := length_dropWhile_le _ _

theorem jsTrim_data (s : String) : (jsTrim s).data = trimList s.data := rfl

theorem jsTrim_length_le (s : String) : (jsTrim s).length ≤ s.length :=
  trimList_length_le s.data

theorem not_ws_of_usernameChar {c : Char} (h : isUsernameChar c = true) :
    isWs c = false := by
  simp only [isUsernameChar, Bool.or_eq_true, Bool.and_eq_true, decide_eq_true_eq,
    beq_iff_eq] at h
  simp only [isWs, Bool.or_eq_false_iff, beq_eq_false_iff_ne, ne_eq]
  omega

theorem jsTrim_eq_self_of_matches {s : String}
    (h : matchesUsernameRegex s = true) : jsTrim s = s := by
  have hall : ∀ c ∈ s.data, isUsernameChar c = true := by
    simp only [matchesUsernameRegex, Bool.and_eq_true, List.all_eq_true] at h
    exact h.2
  have : trimList s.data = s.data :=
    trimList_eq_self (fun c hc => not_ws_of_usernameChar (hall c hc))
  cases s with
  | mk data => exact congrArg String.mk this

theorem string_length_data (s : String) : s.length = s.data.length := rfl

/-! Claim C1. -/

/-- Spec-side validity predicate of claim C1, written from the spec text:
the trimmed username has length between 3 and 20 and fully matches the
username character-class pattern. -/
def usernameSpecValid (u : String) : Bool :=
  decide (3 ≤ (jsTrim u).length) && decide ((jsTrim u).length ≤ 20) &&
    matchesUsernameRegex (jsTrim u)

theorem validateUsername_isValid (u : String) :
    (validateUsername u).isValid = usernameSpecValid u := by
  unfold validateUsername usernameSpecValid
  by_cases h : u = ""
  · subst h; decide
  · rw [if_neg (by simpa using h)]
    by_cases h3 : (jsTrim u).length < 3
    · rw [if_pos h3]
      have : ¬ 3 ≤ (jsTrim u).length := by omega
      simp [this]
    · rw [if_neg h3]
      by_cases h20 : (jsTrim u).length > 20
      · rw [if_pos h20]
        have : ¬ (jsTrim u).length ≤ 20 := by omega
        simp [this]
      · rw [if_neg h20]
        have ha : 3 ≤ (jsTrim u).length := by omega
        have hb : (jsTrim u).length ≤ 20 := by omega
        by_cases hm : matchesUsernameRegex (jsTrim u) = true
        · rw [if_neg (by simp [hm])]
          simp [ha, hb, hm]
        · rw [if_pos (by simp [Bool.eq_false_iff.2 hm])]
          simp [Bool.eq_false_iff.2 hm]

theorem frontendValidateUsername_isValid (u : String) :
    (frontendValidateUsername u).isValid = (usernameSpecValid u && (jsTrim u == u)) := by
  unfold frontendValidateUsername
  by_cases h0 : jsTrim u = ""
  · rw [if_pos (by simpa using h0)]
    have : matchesUsernameRegex (jsTrim u) = false := by
      rw [h0]; decide
    simp [usernameSpecValid, this]
  · rw [if_neg (by simpa using h0)]
    by_cases heq : jsTrim u = u
    · rw [heq]
      by_cases h3 : u.length < 3
      · rw [if_pos h3]
        have : ¬ 3 ≤ u.length := by omega
        simp [usernameSpecValid, heq, this]
      · rw [if_neg h3]
        by_cases h20 : u.length > 20
        · rw [if_pos h20]
          have : ¬ u.length ≤ 20 := by omega
          simp [usernameSpecValid, heq, this]
        · rw [if_neg h20]
          have ha : 3 ≤ u.length := by omega
          have hb : u.length ≤ 20 := by omega
          by_cases hm : matchesUsernameRegex u = true
          · rw [if_neg (by simp [hm])]
            simp [usernameSpecValid, heq, ha, hb, hm]
          · rw [if_pos (by simp [Bool.eq_false_iff.2 hm])]
            simp [usernameSpecValid, heq, Bool.eq_false_iff.2 hm]
    · have hne : (jsTrim u == u) = false := by simpa using heq
      rw [hne, Bool.and_false]
      by_cases hm : matchesUsernameRegex u = true
      · exact absurd (jsTrim_eq_self_of_matches hm) heq
      · split
        · rfl
        · split
          · rfl
          · rw [if_pos (by simp [Bool.eq_false_iff.2 hm])]

/-- C1 counterexample: the username consisting of a space followed by
three letters trims to a valid username, so the claimed criterion calls
it valid, but the frontend implementation rejects it because it applies
the pattern to the untrimmed string. -/
theorem C1_counterexample :
    usernameSpecValid " abc" = true ∧
      (frontendValidateUsername " abc").isValid = false := by decide

/-- C1 (amended): the backend validateUsername accepts a username exactly
when its trimmed form has length between 3 and 20 and fully matches the
letters-digits-underscore-hyphen pattern; the frontend validateUsername
accepts exactly when additionally the username equals its own trim, that
is, it carries no surrounding whitespace. -/
theorem C1_validateUsername (u : String) :
    ((validateUsername u).isValid = usernameSpecValid u) ∧
      ((frontendValidateUsername u).isValid
        = (usernameSpecValid u && (jsTrim u == u))) :=
  ⟨validateUsername_isValid u, frontendValidateUsername_isValid u⟩

/-! Helper lemmas about list search, erasure, in-place update and
sorting. -/

theorem find_eq_some_of_unique {p : α → Bool} {l : List α} {a : α}
    (ha : a ∈ l) (hpa : p a = true) (huniq : ∀ x ∈ l, p x = true → x = a) :
    l.find? p = some a := by
  induction l with
  | nil => cases ha
  | cons x xs ih =>
    by_cases hx : p x = true
    · have hxa : x = a := huniq x (List.mem_cons_self x xs) hx
      subst hxa
      simp [List.find?, hx]
    · have hax : a ≠ x := fun he => hx (he ▸ hpa)
      have ha' : a ∈ xs := by
        rcases List.mem_cons.1 ha with h | h
        · exact absurd h hax
        · exact h
      simp only [List.find?, Bool.eq_false_iff.2 hx]
      exact ih ha' (fun y hy hpy => huniq y (List.mem_cons_of_mem x hy) hpy)

theorem mem_eraseP_of_not {p : α → Bool} {l : List α} {b : α}
    (hb : b ∈ l) (hpb : p b = false) : b ∈ l.eraseP p := by
  induction l with
  | nil => cases hb
  | cons x xs ih =>
    by_cases hx : p x = true
    · rw [List.eraseP_cons_of_pos hx]
      rcases List.mem_cons.1 hb with h | h
      · exact absurd (h ▸ hpb) (by simp [hx])
      · exact h
    · rw [List.eraseP_cons_of_neg (by simpa using hx)]
      rcases List.mem_cons.1 hb with h | h
      · exact h ▸ List.mem_cons_self _ _
      · exact List.mem_cons_of_mem x (ih h)

theorem not_mem_eraseP_of_unique {p : α → Bool} {l : List α} {a : α}
    (hpa : p a = true) (huniq : ∀ x ∈ l, p x = true → x = a)
    (hnd : l.Nodup) : a ∉ l.eraseP p := by
  induction l with
  | nil => simp
  | cons x xs ih =>
    rcases List.nodup_cons.1 hnd with ⟨hxnotin, hnd'⟩
    by_cases hx : p x = true
    · have hxa : x = a := huniq x (List.mem_cons_self x xs) hx
      rw [List.eraseP_cons_of_pos hx]
      exact hxa ▸ hxnotin
    · rw [List.eraseP_cons_of_neg (by simpa using hx)]
      intro hmem
      rcases List.mem_cons.1 hmem with h | h
      · exact hx (h ▸ hpa)
      · exact ih (fun y hy hpy => huniq y (List.mem_cons_of_mem x hy) hpy) hnd' h

theorem mem_updateFirst {p : α → Bool} {f : α → α} {l : List α} {x : α}
    (hx : x ∈ updateFirst p f l) : x ∈ l ∨ ∃ y ∈ l, x = f y := by
  induction l with
  | nil => cases hx
  | cons z zs ih =>
    by_cases hz : p z = true
    · rw [updateFirst, if_pos hz] at hx
      rcases List.mem_cons.1 hx with h | h
      · exact Or.inr ⟨z, List.mem_cons_self z zs, h⟩
      · exact Or.inl (List.mem_cons_of_mem z h)
    · rw [updateFirst, if_neg (by simpa using hz)] at hx
      rcases List.mem_cons.1 hx with h | h
      · exact Or.inl (h ▸ List.mem_cons_self z zs)
      · rcases ih h with h' | ⟨y, hy, hxy⟩
        · exact Or.inl (List.mem_cons_of_mem z h')
        · exact Or.inr ⟨y, List.mem_cons_of_mem z hy, hxy⟩

theorem mem_insertLe {le : α → α → Bool} {a x : α} {l : List α} :
    x ∈ insertLe le a l ↔ x = a ∨ x ∈ l := by
  induction l with
  | nil => simp [insertLe]
  | cons b bs ih =>
    by_cases h : le a b = true
    · rw [insertLe, if_pos h]
      simp
    · rw [insertLe, if_neg (by simpa using h)]
      simp only [List.mem_cons, ih]
      tauto

theorem insertLe_perm (le : α → α → Bool) (a : α) (l : List α) :
    (insertLe le a l).Perm (a :: l) := by
  induction l with
  | nil => simp [insertLe]
  | cons b bs ih =>
    by_cases h : le a b = true
    · rw [insertLe, if_pos h]
    · rw [insertLe, if_neg (by simpa using h)]
      exact (ih.cons b).trans (List.Perm.swap a b bs)

theorem sortLe_perm (le : α → α → Bool) (l : List α) : (sortLe le l).Perm l := by
  induction l with
  | nil => rfl
  | cons x xs ih =>
    exact (insertLe_perm le x (sortLe le xs)).trans (ih.cons x)

theorem mem_sortLe {le : α → α → Bool} {l : List α} {x : α} :
    x ∈ sortLe le l ↔ x ∈ l :=
  (sortLe_perm le l).mem_iff

theorem insertLe_pairwise {le : α → α → Bool}
    (htrans : ∀ a b c, le a b = true → le b c = true → le a c = true)
    (htot : ∀ a b, le a b = true ∨ le b a = true) (a : α) {l : List α}
    (hl : l.Pairwise (fun x y => le x y = true)) :
    (insertLe le a l).Pairwise (fun x y => le x y = true) := by
  induction l with
  | nil => simp [insertLe]
  | cons b bs ih =>
    rcases List.pairwise_cons.1 hl with ⟨hb, hbs⟩
    by_cases h : le a b = true
    · rw [insertLe, if_pos h]
      refine List.pairwise_cons.2 ⟨?_, hl⟩
      intro y hy
      rcases List.mem_cons.1 hy with h' | h'
      · exact h' ▸ h
      · exact htrans a b y h (hb y h')
    · rw [insertLe, if_neg (by simpa using h)]
      have hba : le b a = true := (htot a b).resolve_left h
      refine List.pairwise_cons.2 ⟨?_, ih hbs⟩
      intro y hy
      rcases mem_insertLe.1 hy with h' | h'
      · exact h' ▸ hba
      · exact hb y h'

theorem sortLe_pairwise {le : α → α → Bool}
    (htrans : ∀ a b c, le a b = true → le b c = true → le a c = true)
    (htot : ∀ a b, le a b = true ∨ le b a = true) (l : List α) :
    (sortLe le l).Pairwise (fun x y => le x y = true) := by
  induction l with
  | nil => simp [sortLe]
  | cons x xs ih => exact insertLe_pairwise htrans htot x ih

/-! Claim C3. -/

/-- C3 (confirmed): for any store of users, any hash-comparison oracle
and any two well-formed failing login attempts, one with a username that
matches no user and one with a username of an existing user but a
password whose hash comparison fails, the login route answers with the
one identical response, status 401 and the message Invalid username or
password, so the response does not reveal whether the username exists. -/
theorem C3_login_no_existence_leak
    (users : List User) (compare : String → String → Bool)
    (u1 p1 u2 p2 : String) (user : User)
    (hv1 : validateAuthRequest u1 p1 = none)
    (hv2 : validateAuthRequest u2 p2 = none)
    (h1 : users.find? (fun u => u.username == jsTrim u1) = none)
    (h2 : users.find? (fun u => u.username == jsTrim u2) = some user)
    (hp : compare p2 user.password = false) :
    login users compare u1 p1 = login users compare u2 p2 ∧
      login users compare u1 p1 = .err 401 "Invalid username or password" := by
  have e1 : login users compare u1 p1 = .err 401 "Invalid username or password" := by
    simp [login, hv1, h1]
  have e2 : login users compare u2 p2 = .err 401 "Invalid username or password" := by
    simp [login, hv2, h2, hp]
  exact ⟨e1.trans e2.symm, e1⟩

/-- C3 witness: a store with one user alice; the attempt with the
unregistered username bob123 and the attempt with alice's username and a
wrong password get the identical 401 response. -/
theorem C3_login_no_existence_leak_witness :
    login [⟨"u1", "alice", "hash1"⟩] (fun p h => p == h) "bob123" "password1"
        = login [⟨"u1", "alice", "hash1"⟩] (fun p h => p == h) "alice" "wrongpass1" ∧
      login [⟨"u1", "alice", "hash1"⟩] (fun p h => p == h) "bob123" "password1"
        = .err 401 "Invalid username or password" :=
  C3_login_no_existence_leak [⟨"u1", "alice", "hash1"⟩] (fun p h => p == h)
    "bob123" "password1" "alice" "wrongpass1" ⟨"u1", "alice", "hash1"⟩
    (by decide) (by decide) (by decide) (by decide) (by decide)

/-! Helper lemmas about the ticket validators and the validation
middleware. -/

theorem validateTicketTitle_cases (x : Option String) :
    validateTicketTitle x = ⟨true, none⟩ ∨
      ∃ m, validateTicketTitle x = ⟨false, some m⟩ := by
  cases x with
  | none => exact Or.inr ⟨_, rfl⟩
  | some t =>
    by_cases h0 : t = ""
    · exact Or.inr ⟨"Title is required", by simp [validateTicketTitle, h0]⟩
    · by_cases h3 : (jsTrim t).length < 3
      · exact Or.inr ⟨"Title must be at least 3 characters long",
          by simp [validateTicketTitle, h0, h3]⟩
      · by_cases h100 : (jsTrim t).length > 100
        · exact Or.inr ⟨"Title must be less than 100 characters",
            by simp [validateTicketTitle, h0, h3, h100]⟩
        · exact Or.inl (by simp [validateTicketTitle, h0, h3, h100])

theorem validateTicketDescription_cases (x : Option String) :
    validateTicketDescription x = ⟨true, none⟩ ∨
      ∃ m, validateTicketDescription x = ⟨false, some m⟩ := by
  cases x with
  | none => exact Or.inl rfl
  | some d =>
    by_cases h0 : d = ""
    · exact Or.inl (by simp [validateTicketDescription, h0])
    · by_cases h1 : d.length > 1000
      · exact Or.inr ⟨"Description must be less than 1000 characters",
          by simp [validateTicketDescription, h0, h1]⟩
      · exact Or.inl (by simp [validateTicketDescription, h0, h1])

theorem validateTicketStatus_cases (x : Option String) :
    validateTicketStatus x = ⟨true, none⟩ ∨
      ∃ m, validateTicketStatus x = ⟨false, some m⟩ := by
  cases x with
  | none => exact Or.inl rfl
  | some s =>
    by_cases h0 : s = ""
    · exact Or.inl (by simp [validateTicketStatus, h0])
    · by_cases h1 : s ∈ validStatuses
      · exact Or.inl (by simp [validateTicketStatus, h0, h1])
      · exact Or.inr ⟨"Status must be OPEN, IN_PROGRESS, or CLOSED",
          by simp [validateTicketStatus, h0, h1]⟩

theorem validateTicketRequest_none_iff (body : TicketRequestBody) :
    validateTicketRequest body = none ↔
      (validateTicketTitle body.title).isValid = true ∧
      (validateTicketDescription body.description).isValid = true ∧
      (validateTicketStatus body.status).isValid = true := by
  unfold validateTicketRequest
  rcases validateTicketTitle_cases body.title with h1 | ⟨m1, h1⟩
  · rw [h1]
    rcases validateTicketDescription_cases body.description with h2 | ⟨m2, h2⟩
    · rw [h2]
      rcases validateTicketStatus_cases body.status with h3 | ⟨m3, h3⟩
      · rw [h3]; simp
      · rw [h3]; simp
    · rw [h2]; simp
  · rw [h1]; simp

theorem validateTicketRequest_title_error {body : TicketRequestBody} {m : String}
    (h : validateTicketTitle body.title = ⟨false, some m⟩) :
    validateTicketRequest body = some m := by
  unfold validateTicketRequest
  rw [h]
  simp

theorem validateTicketRequest_of_valid {body : TicketRequestBody}
    (h1 : validateTicketTitle body.title = ⟨true, none⟩)
    (h2 : (validateTicketDescription body.description).isValid = true)
    (h3 : (validateTicketStatus body.status).isValid = true) :
    validateTicketRequest body = none :=
  (validateTicketRequest_none_iff body).2 ⟨by rw [h1], h2, h3⟩

/-! Claim C7. -/

/-- C7 (confirmed): a valid ticket-create request whose status field is
absent creates and returns the ticket with status OPEN, with the
authenticated requester as creator, and with the submitted title and
description trimmed; the ticket is appended to the store. -/
theorem C7_create_default_status (store : List Ticket)
    (requester : String) (body : TicketRequestBody) (newId : String) (now : Nat)
    (rawTitle : String)
    (hval : validateTicketRequest body = none)
    (htitle : body.title = some rawTitle)
    (hstatus : body.status = none) :
    createTicket store requester body newId now
      = (.ok 201 ⟨newId, jsTrim rawTitle, body.description.map jsTrim,
            "OPEN", requester, now⟩,
         store ++ [⟨newId, jsTrim rawTitle, body.description.map jsTrim,
            "OPEN", requester, now⟩]) := by
  simp [createTicket, hval, htitle, hstatus, jsOr]

/-- C7 witness: creating a ticket titled Fix login bug with no
description and no status yields a 201 with status OPEN, creator alice
and the submitted title. -/
theorem C7_create_default_status_witness :
    createTicket [] "alice" ⟨some "Fix login bug", none, none⟩ "t9" 5
      = (.ok 201 ⟨"t9", "Fix login bug", none, "OPEN", "alice", 5⟩,
         [⟨"t9", "Fix login bug", none, "OPEN", "alice", 5⟩]) :=
  (C7_create_default_status [] "alice" ⟨some "Fix login bug", none, none⟩
    "t9" 5 "Fix login bug" (by decide) rfl rfl).trans (by decide)

/-! Claim C6. -/

/-- A title of one hundred letters. -/
def hundredCharTitle : String := ⟨List.replicate 100 'a'⟩

/-- A title of one hundred and one letters. -/
def hundredOneCharTitle : String := ⟨List.replicate 101 'a'⟩

/-- C6 counterexample: the title consisting of two spaces and one letter
has length exactly 3 but the create route rejects it, because the length
check runs on the trimmed title; and the title of one hundred letters
followed by one space has length exactly 101 but the create route
accepts it.  Both refute the claim as stated. -/
theorem C6_counterexample :
    ("  a".length = 3 ∧
      (createTicket [] "alice" ⟨some "  a", none, none⟩ "t1" 0).1
        = .err 400 "Title must be at least 3 characters long") ∧
    ((hundredCharTitle ++ " ").length = 101 ∧
      (createTicket [] "alice" ⟨some (hundredCharTitle ++ " "), none, none⟩ "t1" 0).1
        = .ok 201 ⟨"t1", hundredCharTitle, none, "OPEN", "alice", 0⟩) := by
  decide

/-- C6 (amended): for a create request whose description and status pass
validation, a title of length 2 is always rejected with the length
validation error and no ticket is created; a title equal to its own trim
(no surrounding whitespace) with length between 3 and 100 — in
particular of length exactly 3 or exactly 100 — is accepted, the ticket
being created with that title; and a title equal to its own trim of
length 101 is rejected with the length validation error.  For titles
with surrounding whitespace the bounds apply to the trimmed length. -/
theorem C6_title_length_bounds (store : List Ticket) (requester newId : String)
    (now : Nat) (body : TicketRequestBody) (t : String)
    (htitle : body.title = some t)
    (hdesc : (validateTicketDescription body.description).isValid = true)
    (hstat : (validateTicketStatus body.status).isValid = true) :
    (t.length = 2 →
      createTicket store requester body newId now
        = (.err 400 "Title must be at least 3 characters long", store)) ∧
    (jsTrim t = t → 3 ≤ t.length → t.length ≤ 100 →
      ∃ tk : Ticket, createTicket store requester body newId now
          = (.ok 201 tk, store ++ [tk]) ∧ tk.title = t) ∧
    (jsTrim t = t → t.length = 101 →
      createTicket store requester body newId now
        = (.err 400 "Title must be less than 100 characters", store)) := by
  refine ⟨?_, ?_, ?_⟩
  · intro h2
    have hne : ¬ t = "" := by
      intro he
      rw [he] at h2
      exact absurd h2 (by decide)
    have hlt : (jsTrim t).length < 3 := by
      have := jsTrim_length_le t
      omega
    have hv : validateTicketTitle body.title
        = ⟨false, some "Title must be at least 3 characters long"⟩ := by
      rw [htitle]
      simp [validateTicketTitle, hne, hlt]
    simp [createTicket, validateTicketRequest_title_error hv]
  · intro htr h3 h100
    have hne : ¬ t = "" := by
      intro he
      rw [he] at h3
      exact absurd h3 (by decide)
    have hv : validateTicketTitle body.title = ⟨true, none⟩ := by
      rw [htitle]
      simp only [validateTicketTitle, htr]
      rw [if_neg (by simpa using hne), if_neg (by omega), if_neg (by omega)]
    have hreq := validateTicketRequest_of_valid hv hdesc hstat
    refine ⟨⟨newId, jsTrim t, body.description.map jsTrim,
      jsOr body.status "OPEN", requester, now⟩, ?_, ?_⟩
    · simp [createTicket, hreq, htitle]
    · simp [htr]
  · intro htr h101
    have hne : ¬ t = "" := by
      intro he
      rw [he] at h101
      exact absurd h101 (by decide)
    have hv : validateTicketTitle body.title
        = ⟨false, some "Title must be less than 100 characters"⟩ := by
      rw [htitle]
      simp only [validateTicketTitle, htr]
      rw [if_neg (by simpa using hne), if_neg (by omega), if_pos (by omega)]
    simp [createTicket, validateTicketRequest_title_error hv]

/-- C6 witness: a length-2 title is rejected, a whitespace-free length-3
title is accepted, and a whitespace-free length-101 title is rejected,
each on the empty store. -/
theorem C6_title_length_bounds_witness :
    (createTicket [] "alice" ⟨some "ab", none, none⟩ "t1" 0
        = (.err 400 "Title must be at least 3 characters long", [])) ∧
    (∃ tk : Ticket, createTicket [] "alice" ⟨some "abc", none, none⟩ "t1" 0
        = (.ok 201 tk, [] ++ [tk]) ∧ tk.title = "abc") ∧
    (createTicket [] "alice" ⟨some hundredOneCharTitle, none, none⟩ "t1" 0
        = (.err 400 "Title must be less than 100 characters", [])) :=
  ⟨(C6_title_length_bounds [] "alice" "t1" 0 ⟨some "ab", none, none⟩ "ab"
      rfl (by decide) (by decide)).1 (by decide),
   (C6_title_length_bounds [] "alice" "t1" 0 ⟨some "abc", none, none⟩ "abc"
      rfl (by decide) (by decide)).2.1 (by decide) (by decide) (by decide),
   (C6_title_length_bounds [] "alice" "t1" 0
      ⟨some hundredOneCharTitle, none, none⟩ hundredOneCharTitle
      rfl (by decide) (by decide)).2.2 (by decide) (by decide)⟩

/-! Helper lemmas about the update document. -/

theorem applyUpdateData_status (body : TicketRequestBody) (t : Ticket) :
    (applyUpdateData body t).status = jsOr body.status t.status := by
  unfold applyUpdateData jsOr
  cases body.status with
  | none =>
    cases body.title with
    | none => cases body.description <;> rfl
    | some s =>
      by_cases hs : s = "" <;>
        cases body.description <;> simp [hs]
  | some st =>
    by_cases hst : st = ""
    · cases body.title with
      | none => cases body.description <;> simp [hst]
      | some s =>
        by_cases hs : s = "" <;> cases body.description <;> simp [hs, hst]
    · cases body.title with
      | none => cases body.description <;> simp [hst]
      | some s =>
        by_cases hs : s = "" <;> cases body.description <;> simp [hs, hst]

theorem applyUpdateData_description (body : TicketRequestBody) (t : Ticket) :
    (applyUpdateData body t).description
      = (match body.description with
         | none => t.description
         | some d => some (jsTrim d)) := by
  unfold applyUpdateData
  cases body.status with
  | none =>
    cases body.title with
    | none => cases body.description <;> rfl
    | some s => by_cases hs : s = "" <;> cases body.description <;> simp [hs]
  | some st =>
    by_cases hst : st = ""
    · cases body.title with
      | none => cases body.description <;> simp [hst]
      | some s => by_cases hs : s = "" <;> cases body.description <;> simp [hs, hst]
    · cases body.title with
      | none => cases body.description <;> simp [hst]
      | some s => by_cases hs : s = "" <;> cases body.description <;> simp [hs, hst]

theorem jsOr_status_mem {o : Option String} {d : String}
    (ho : (validateTicketStatus o).isValid = true) (hd : d ∈ validStatuses) :
    jsOr o d ∈ validStatuses := by
  cases o with
  | none => exact hd
  | some s =>
    by_cases hs : s = ""
    · simp [jsOr, hs, hd]
    · by_cases hmem : s ∈ validStatuses
      · simp [jsOr, hs, hmem]
      · exact absurd ho (by simp [validateTicketStatus, hs, hmem])

/-! Claim C10. -/

/-- Every ticket in the store carries one of the three legal statuses. -/
def statusInvariant (store : List Ticket) : Prop :=
  ∀ t ∈ store, t.status ∈ validStatuses

/-- C10 (confirmed): the three-valued status set is an invariant.  Any
create and any update request preserves it; a request supplying a truthy
status outside the set is rejected by validation with a 400 before any
mutation, both routes leaving the store unchanged; and a create request
with the status absent that succeeds produces a ticket with status
OPEN. -/
theorem C10_status_invariant (store : List Ticket) (requester id newId : String)
    (now : Nat) (body : TicketRequestBody) :
    (statusInvariant store →
      statusInvariant (createTicket store requester body newId now).2) ∧
    (statusInvariant store →
      statusInvariant (updateTicket store requester id body).2) ∧
    (∀ s, body.status = some s → s ≠ "" → s ∉ validStatuses →
      (∃ m, validateTicketRequest body = some m) ∧
      (createTicket store requester body newId now).2 = store ∧
      (updateTicket store requester id body).2 = store) ∧
    (body.status = none → ∀ tk st,
      createTicket store requester body newId now = (.ok 201 tk, st) →
      tk.status = "OPEN") := by
  refine ⟨?_, ?_, ?_, ?_⟩
  · intro hinv
    cases hv : validateTicketRequest body with
    | some m => simpa [createTicket, hv] using hinv
    | none =>
      have hstat := ((validateTicketRequest_none_iff body).1 hv).2.2
      intro x hx
      simp only [createTicket, hv] at hx
      rcases List.mem_append.1 hx with h | h
      · exact hinv x h
      · rcases List.mem_singleton.1 h with rfl
        exact jsOr_status_mem hstat (by decide)
  · intro hinv
    cases hv : validateTicketRequest body with
    | some m => simpa [updateTicket, hv] using hinv
    | none =>
      have hstat := ((validateTicketRequest_none_iff body).1 hv).2.2
      cases hf : store.find? (fun t => t.id == id) with
      | none => simpa [updateTicket, hv, hf] using hinv
      | some t =>
        intro x hx
        simp only [updateTicket, hv, hf] at hx
        rcases mem_updateFirst hx with h | ⟨y, hy, rfl⟩
        · exact hinv x h
        · rw [applyUpdateData_status]
          exact jsOr_status_mem hstat (hinv y hy)
  · intro s hs hne hnotmem
    have hbad : (validateTicketStatus body.status).isValid = false := by
      rw [hs]
      simp [validateTicketStatus, hne, hnotmem]
    have : validateTicketRequest body ≠ none := by
      intro h
      have := ((validateTicketRequest_none_iff body).1 h).2.2
      rw [hbad] at this
      cases this
    cases hv : validateTicketRequest body with
    | none => exact absurd hv this
    | some m =>
      refine ⟨⟨m, rfl⟩, by simp [createTicket, hv], by simp [updateTicket, hv]⟩
  · intro hnone tk st h
    cases hv : validateTicketRequest body with
    | some m => simp [createTicket, hv] at h
    | none =>
      simp only [createTicket, hv, Prod.mk.injEq, ApiResponse.ok.injEq] at h
      rcases h with ⟨⟨_, rfl⟩, _⟩
      simp [hnone, jsOr]

/-- C10 witness: on a store holding one OPEN ticket, the invariant is
preserved by a create; a create supplying the status BOGUS is rejected
and mutates nothing; and a status-less successful create yields status
OPEN. -/
theorem C10_status_invariant_witness :
    statusInvariant (createTicket [⟨"t1", "bug report", none, "OPEN", "alice", 0⟩]
        "alice" ⟨some "abc", none, none⟩ "t2" 1).2 ∧
    ((∃ m, validateTicketRequest ⟨some "abc", none, some "BOGUS"⟩ = some m) ∧
      (createTicket [] "alice" ⟨some "abc", none, some "BOGUS"⟩ "t2" 1).2 = [] ∧
      (updateTicket [] "alice" "t1" ⟨some "abc", none, some "BOGUS"⟩).2 = []) :=
  ⟨(C10_status_invariant [⟨"t1", "bug report", none, "OPEN", "alice", 0⟩]
      "alice" "t1" "t2" 1 ⟨some "abc", none, none⟩).1
      (by intro t ht; simp at ht; subst ht; decide),
   (C10_status_invariant [] "alice" "t1" "t2" 1
      ⟨some "abc", none, some "BOGUS"⟩).2.2.1 "BOGUS" rfl (by decide) (by decide)⟩

/-! Uniqueness of document ids, the unique-index property of the
document store. -/

/-- All tickets in the store have pairwise distinct ids. -/
def uniqueIds (store : List Ticket) : Prop :=
  store.Pairwise (fun a b => a.id ≠ b.id)

theorem eq_of_uniqueIds {store : List Ticket} (h : uniqueIds store)
    {x t : Ticket} (hx : x ∈ store) (ht : t ∈ store) (he : x.id = t.id) :
    x = t := by
  by_contra hne
  exact (List.Pairwise.forall (fun a b hab => (hab ∘ Eq.symm)) h hx ht hne) he

theorem nodup_of_uniqueIds {store : List Ticket} (h : uniqueIds store) :
    store.Nodup :=
  h.imp (fun hid he => hid (by rw [he]))

theorem find_ticket_by_id {store : List Ticket} {t : Ticket} {id : String}
    (huniq : uniqueIds store) (ht : t ∈ store) (hid : t.id = id) :
    store.find? (fun x => x.id == id) = some t :=
  find_eq_some_of_unique ht (by simp [hid])
    (fun x hx hpx => eq_of_uniqueIds huniq hx ht
      (by rw [beq_iff_eq] at hpx; rw [hpx, hid]))

/-! Claim C5. -/

/-- A sample ticket owned by alice. -/
def sampleTicket : Ticket := ⟨"t1", "bug report", none, "OPEN", "alice", 0⟩

/-- C5 counterexample: the update request supplying only the status field
CLOSED has every provided field valid, and the store holds a ticket with
the requested id, yet the update is rejected with the title-required
validation error, because the validation middleware always validates the
title. -/
theorem C5_counterexample :
    (validateTicketStatus (some "CLOSED")).isValid = true ∧
      (validateTicketDescription (none : Option String)).isValid = true ∧
      sampleTicket.id = "t1" ∧
      updateTicket [sampleTicket] "alice" "t1" ⟨none, none, some "CLOSED"⟩
        = (.err 400 "Title is required", [sampleTicket]) := by decide

/-- C5 (amended): the update route requires the title on every request —
a request without a title fails with the title-required validation error
and mutates nothing — while description and status remain optional.  A
request passing validation succeeds on an existing id, returning the
record updated by the provided fields with the omitted description and
status unchanged, and fails with 404 on an absent id. -/
theorem C5_update_partial_fields (store : List Ticket) (requester id : String)
    (body : TicketRequestBody) :
    (body.title = none →
      updateTicket store requester id body
        = (.err 400 "Title is required", store)) ∧
    (validateTicketRequest body = none →
      (store.find? (fun t => t.id == id) = none →
        updateTicket store requester id body
          = (.err 404 "Ticket not found", store)) ∧
      (∀ t, uniqueIds store → t ∈ store → t.id = id →
        (updateTicket store requester id body).1
            = .ok 200 (applyUpdateData body t) ∧
        (body.description = none →
          (applyUpdateData body t).description = t.description) ∧
        (body.status = none →
          (applyUpdateData body t).status = t.status))) := by
  refine ⟨?_, ?_⟩
  · intro hn
    have hv : validateTicketRequest body = some "Title is required" :=
      validateTicketRequest_title_error (by rw [hn]; rfl)
    simp [updateTicket, hv]
  · intro hv
    refine ⟨?_, ?_⟩
    · intro hf
      simp [updateTicket, hv, hf]
    · intro t huniq ht hid
      have hf := find_ticket_by_id huniq ht hid
      refine ⟨by simp [updateTicket, hv, hf], ?_, ?_⟩
      · intro hd
        rw [applyUpdateData_description, hd]
      · intro hs
        rw [applyUpdateData_status, hs]
        rfl

/-- C5 witness: on a store with one ticket, a status-only update is
rejected with the title-required error, an update of an absent id gives
404, and a well-formed update of the existing id succeeds. -/
theorem C5_update_partial_fields_witness :
    (updateTicket [sampleTicket] "alice" "t1" ⟨none, none, some "CLOSED"⟩
        = (.err 400 "Title is required", [sampleTicket])) ∧
    (updateTicket [sampleTicket] "alice" "zz" ⟨some "new title", none, none⟩
        = (.err 404 "Ticket not found", [sampleTicket])) ∧
    ((updateTicket [sampleTicket] "alice" "t1" ⟨some "new title", none, none⟩).1
        = .ok 200 (applyUpdateData ⟨some "new title", none, none⟩ sampleTicket)) :=
  ⟨(C5_update_partial_fields [sampleTicket] "alice" "t1"
      ⟨none, none, some "CLOSED"⟩).1 rfl,
   ((C5_update_partial_fields [sampleTicket] "alice" "zz"
      ⟨some "new title", none, none⟩).2 (by decide)).1 (by decide),
   (((C5_update_partial_fields [sampleTicket] "alice" "t1"
      ⟨some "new title", none, none⟩).2 (by decide)).2 sampleTicket
      (by simp [uniqueIds]) (by simp) rfl).1⟩

/-! Claim C9. -/

/-- C9 (confirmed): in the backend ticket routes, deleting an existing
ticket whose creator is not the requester answers the same NotFound
response as an absent id (never Forbidden) and leaves the store
unchanged; deleting as the creator succeeds and removes exactly that
ticket; and delete is the only owner-scoped mutation — the single-ticket
read and the update succeed for any requester. -/
theorem C9_delete_owner_scoped (store : List Ticket) (requester id : String)
    (body : TicketRequestBody) (t : Ticket) :
    ((∃ x ∈ store, x.id = id) →
      (∀ x ∈ store, ¬(x.id = id ∧ x.createdBy = requester)) →
      deleteTicket store requester id = (.err 404 "Ticket not found", store)) ∧
    (uniqueIds store → t ∈ store → t.id = id → t.createdBy = requester →
      (deleteTicket store requester id).1 = .ok 200 "Ticket deleted" ∧
      t ∉ (deleteTicket store requester id).2 ∧
      (∀ u ∈ store, u ≠ t → u ∈ (deleteTicket store requester id).2) ∧
      (∀ u ∈ (deleteTicket store requester id).2, u ∈ store)) ∧
    (uniqueIds store → t ∈ store → t.id = id →
      getTicket store requester id = .ok 200 t) ∧
    (uniqueIds store → t ∈ store → t.id = id →
      validateTicketRequest body = none →
      (updateTicket store requester id body).1
        = .ok 200 (applyUpdateData body t)) := by
  refine ⟨?_, ?_, ?_, ?_⟩
  · intro _ hnone
    have hf : store.find? (fun x => x.id == id && x.createdBy == requester)
        = none := by
      rw [List.find?_eq_none]
      intro x hx
      simpa using hnone x hx
    simp [deleteTicket, hf]
  · intro huniq ht hid hcb
    have hpt : (t.id == id && t.createdBy == requester) = true := by
      simp [hid, hcb]
    have huniqp : ∀ x ∈ store,
        (x.id == id && x.createdBy == requester) = true → x = t := by
      intro x hx hpx
      simp only [Bool.and_eq_true, beq_iff_eq] at hpx
      exact eq_of_uniqueIds huniq hx ht (by rw [hpx.1, hid])
    have hf : store.find? (fun x => x.id == id && x.createdBy == requester)
        = some t := find_eq_some_of_unique ht hpt huniqp
    refine ⟨by simp [deleteTicket, hf], ?_, ?_, ?_⟩
    · simp only [deleteTicket, hf]
      exact not_mem_eraseP_of_unique hpt huniqp (nodup_of_uniqueIds huniq)
    · intro u hu hne
      simp only [deleteTicket, hf]
      refine mem_eraseP_of_not hu (Bool.eq_false_iff.2 ?_)
      intro hpu
      exact hne (huniqp u hu hpu)
    · intro u hu
      simp only [deleteTicket, hf] at hu
      exact List.eraseP_subset _ hu
  · intro huniq ht hid
    simp [getTicket, find_ticket_by_id huniq ht hid]
  · intro huniq ht hid hv
    simp [updateTicket, hv, find_ticket_by_id huniq ht hid]

/-- C9 witness: bob cannot delete alice's ticket (404, store unchanged)
but can read and update it; alice's own delete removes it. -/
theorem C9_delete_owner_scoped_witness :
    (deleteTicket [sampleTicket] "bob" "t1"
        = (.err 404 "Ticket not found", [sampleTicket])) ∧
    ((deleteTicket [sampleTicket] "alice" "t1").1 = .ok 200 "Ticket deleted" ∧
      sampleTicket ∉ (deleteTicket [sampleTicket] "alice" "t1").2) ∧
    (getTicket [sampleTicket] "bob" "t1" = .ok 200 sampleTicket) ∧
    ((updateTicket [sampleTicket] "bob" "t1" ⟨some "new title", none, none⟩).1
        = .ok 200 (applyUpdateData ⟨some "new title", none, none⟩ sampleTicket)) :=
  ⟨(C9_delete_owner_scoped [sampleTicket] "bob" "t1"
      ⟨some "new title", none, none⟩ sampleTicket).1
      ⟨sampleTicket, by simp, rfl⟩ (by decide),
   (fun h => ⟨h.1, h.2.1⟩)
     ((C9_delete_owner_scoped [sampleTicket] "alice" "t1"
        ⟨some "new title", none, none⟩ sampleTicket).2.1
        (by simp [uniqueIds]) (by simp) rfl rfl),
   (C9_delete_owner_scoped [sampleTicket] "bob" "t1"
      ⟨some "new title", none, none⟩ sampleTicket).2.2.1
      (by simp [uniqueIds]) (by simp) rfl,
   (C9_delete_owner_scoped [sampleTicket] "bob" "t1"
      ⟨some "new title", none, none⟩ sampleTicket).2.2.2
      (by simp [uniqueIds]) (by simp) rfl (by decide)⟩

/-! Claim C4. -/

/-- The body of a successful list response. -/
def respList : ApiResponse (List α) → List α
  | .ok _ l => l
  | .err _ _ => []

theorem matchesFilter_iff (q : ListQuery) (t : Ticket) :
    matchesFilter q t = true ↔
      ((∀ s, q.status = some s → s ≠ "" → t.status = s) ∧
       (∀ s, q.search = some s → s ≠ "" →
         (containsCI t.title s = true ∨
           (isObjectIdShape s = true ∧ t.id = s)))) := by
  unfold matchesFilter
  cases hst : q.status with
  | none =>
    cases hse : q.search with
    | none => simp [truthy]
    | some s =>
      by_cases hs : s = ""
      · simp [truthy, hs]
      · simp [truthy, hs]
  | some st =>
    by_cases hstv : st = ""
    · cases hse : q.search with
      | none => simp [truthy, hstv]
      | some s =>
        by_cases hs : s = ""
        · simp [truthy, hstv, hs]
        · simp [truthy, hstv, hs]
    · cases hse : q.search with
      | none => simp [truthy, hstv]
      | some s =>
        by_cases hs : s = ""
        · simp [truthy, hstv, hs]
        · simp [truthy, hstv, hs, and_comm]

/-- C4 counterexample: the store holds one OPEN ticket titled bug report;
the request searches for zzz with the status filter OPEN.  Under the
claimed union semantics the ticket would be returned, since it passes
the status filter; the route returns the empty list, because the status
condition and the search condition are conjoined in one Mongo filter. -/
theorem C4_counterexample :
    sampleTicket.status = "OPEN" ∧
      listTickets [sampleTicket] ⟨some "zzz", some "OPEN", none, none⟩
        = .ok 200 [] := by decide

/-- C4 (amended): the list result contains exactly the tickets of the
store that satisfy the conjunction (not the union) of the two optional
conditions: when a nonempty status parameter is supplied the status must
equal it, and when a nonempty search string is supplied the title must
contain it case-insensitively or, when the search string has the
24-hex-character ObjectId shape, the id must equal it.  In particular a
request with search bug and no status filter returns only tickets whose
title contains bug case-insensitively. -/
theorem C4_list_search_filter (store : List Ticket) (q : ListQuery) (t : Ticket) :
    (t ∈ respList (listTickets store q) ↔
      t ∈ store ∧
        (∀ s, q.status = some s → s ≠ "" → t.status = s) ∧
        (∀ s, q.search = some s → s ≠ "" →
          (containsCI t.title s = true ∨
            (isObjectIdShape s = true ∧ t.id = s)))) ∧
    (∀ sb so, t ∈ respList (listTickets store ⟨some "bug", none, sb, so⟩) →
      containsCI t.title "bug" = true) := by
  have hmem : ∀ q' : ListQuery, t ∈ respList (listTickets store q') ↔
      t ∈ store ∧ matchesFilter q' t = true := by
    intro q'
    show t ∈ sortLe _ (store.filter (matchesFilter q')) ↔ _
    rw [mem_sortLe, List.mem_filter]
  constructor
  · rw [hmem, matchesFilter_iff]
  · intro sb so hticket
    rcases (hmem ⟨some "bug", none, sb, so⟩).1 hticket with ⟨_, hmatch⟩
    rcases ((matchesFilter_iff ⟨some "bug", none, sb, so⟩ t).1 hmatch).2 "bug"
        rfl (by decide) with h | ⟨hshape, _⟩
    · exact h
    · exact absurd hshape (by decide)

/-- C4 witness: the sample ticket titled bug report is in the result of
the search for bug, and its title indeed contains bug
case-insensitively. -/
theorem C4_list_search_filter_witness :
    containsCI sampleTicket.title "bug" = true :=
  (C4_list_search_filter [sampleTicket] ⟨some "bug", none, none, none⟩
    sampleTicket).2 none none (by decide)

/-! Claim C8. -/

theorem commentLe_trans : ∀ a b c : BComment,
    commentLe a b = true → commentLe b c = true → commentLe a c = true := by
  intro a b c hab hbc
  simp only [commentLe, decide_eq_true_eq] at hab hbc ⊢
  omega

theorem commentLe_total : ∀ a b : BComment,
    commentLe a b = true ∨ commentLe b a = true := by
  intro a b
  simp only [commentLe, decide_eq_true_eq]
  omega

theorem pCommentLe_trans : ∀ a b c : PComment,
    pCommentLe a b = true → pCommentLe b c = true → pCommentLe a c = true := by
  intro a b c hab hbc
  simp only [pCommentLe, decide_eq_true_eq] at hab hbc ⊢
  omega

theorem pCommentLe_total : ∀ a b : PComment,
    pCommentLe a b = true ∨ pCommentLe b a = true := by
  intro a b
  simp only [pCommentLe, decide_eq_true_eq]
  omega

/-- C8 counterexample: the comment list route of the alternative revision
never checks ticket existence: with no comments at all (and in a system
with no tickets, so the requested ticket does not exist) it answers 200
with the empty array where the claim requires NotFound.  The backend
revision of the same operation does answer 404 there. -/
theorem C8_counterexample :
    p14GetComments ([] : List PComment) "0123456789abcdef01234567"
        = .ok 200 [] ∧
      listComments ([] : List Ticket) ([] : List BComment)
          "0123456789abcdef01234567" = .err 404 "Ticket not found" := by
  decide

/-- C8 (amended): the backend comment list fails with 404 when no ticket
with the given id exists and otherwise returns exactly the comments of
that ticket (a permutation of the filtered store) sorted by ascending
creation time; the comment list of the alternative revision returns the
ticket's comments sorted ascending without any ticket-existence check,
so an absent ticket yields 200 with the empty array, never NotFound. -/
theorem C8_list_comments (tickets : List Ticket) (comments : List BComment)
    (pcs : List PComment) (tid : String) :
    (tickets.find? (fun t => t.id == tid) = none →
      listComments tickets comments tid = .err 404 "Ticket not found") ∧
    (∀ tk, tickets.find? (fun t => t.id == tid) = some tk →
      ∃ l, listComments tickets comments tid = .ok 200 l ∧
        l.Perm (comments.filter (fun c => c.ticketId == tid)) ∧
        l.Pairwise (fun a b => a.createdAt ≤ b.createdAt)) ∧
    (∃ l, p14GetComments pcs tid = .ok 200 l ∧
      l.Perm (pcs.filter (fun c => c.ticket == tid)) ∧
      l.Pairwise (fun a b => a.createdAt ≤ b.createdAt)) := by
  refine ⟨?_, ?_, ?_⟩
  · intro hf
    simp [listComments, hf]
  · intro tk hf
    refine ⟨sortLe commentLe (comments.filter (fun c => c.ticketId == tid)),
      by simp [listComments, hf], sortLe_perm _ _, ?_⟩
    exact (sortLe_pairwise commentLe_trans commentLe_total _).imp
      (fun h => by simpa only [commentLe, decide_eq_true_eq] using h)
  · refine ⟨_, rfl, sortLe_perm _ _, ?_⟩
    exact (sortLe_pairwise pCommentLe_trans pCommentLe_total _).imp
      (fun h => by simpa only [pCommentLe, decide_eq_true_eq] using h)

/-- A sample comment by alice on the sample ticket. -/
def sampleBComment : BComment := ⟨"c1", "hello", "t1", "alice", "alice", 3⟩

/-- C8 witness: the backend list answers 404 for an unknown ticket id and
returns the single comment of the sample ticket sorted ascending. -/
theorem C8_list_comments_witness :
    (listComments [sampleTicket] [sampleBComment] "zz"
        = .err 404 "Ticket not found") ∧
    (∃ l, listComments [sampleTicket] [sampleBComment] "t1" = .ok 200 l ∧
      l.Perm ([sampleBComment].filter (fun c => c.ticketId == "t1")) ∧
      l.Pairwise (fun a b => a.createdAt ≤ b.createdAt)) :=
  ⟨(C8_list_comments [sampleTicket] [sampleBComment] [] "zz").1 (by decide),
   (C8_list_comments [sampleTicket] [sampleBComment] [] "t1").2.1
     sampleTicket (by decide)⟩

/-! Claim C2. -/

/-- All comments in the backend store have pairwise distinct ids. -/
def uniqueCommentIds (comments : List BComment) : Prop :=
  comments.Pairwise (fun a b => a.id ≠ b.id)

theorem eq_of_uniqueCommentIds {comments : List BComment}
    (h : uniqueCommentIds comments) {x t : BComment}
    (hx : x ∈ comments) (ht : t ∈ comments) (he : x.id = t.id) : x = t := by
  by_contra hne
  exact (List.Pairwise.forall (fun a b hab => (hab ∘ Eq.symm)) h hx ht hne) he

theorem nodup_of_uniqueCommentIds {comments : List BComment}
    (h : uniqueCommentIds comments) : comments.Nodup :=
  h.imp (fun hid he => hid (by rw [he]))

/-- A sample comment of the alternative revision, authored by alice. -/
def samplePComment : PComment := ⟨"c1", "t1", "alice", "hi", 0⟩

/-- C2 counterexample: in the alternative revision of the comment delete
route, deleting an existing comment as a non-author answers 403 Not
authorized while deleting an absent comment answers 404 Comment not
found — two different responses, refuting the claimed single collapsed
NotFound that never reveals which case occurred. -/
theorem C2_counterexample :
    p14DeleteComment [samplePComment] "bob" "c1"
        = (.err 403 "Not authorized", [samplePComment]) ∧
      p14DeleteComment [samplePComment] "bob" "c9"
        = (.err 404 "Comment not found", [samplePComment]) := by decide

/-- C2 (amended): in the backend revision the comment delete collapses
the absent and the not-owned cases into the one identical 404 response
and a delete by the author succeeds, removes the comment, and a
subsequent comment list of its ticket does not contain it.  In the
alternative revision the two failure cases are distinguished: an absent
comment answers 404, an existing comment of another author answers 403,
and the author's delete removes the comment. -/
theorem C2_delete_comment (tickets : List Ticket) (comments : List BComment)
    (pcs : List PComment) (requester cid : String) (c : BComment)
    (pc : PComment) :
    ((∀ x ∈ comments, ¬(x.id = cid ∧ x.userId = requester)) →
      deleteComment comments requester cid
        = (.err 404 "Comment not found or unauthorized", comments)) ∧
    (uniqueCommentIds comments → c ∈ comments → c.id = cid →
      c.userId = requester →
      (deleteComment comments requester cid).1 = .ok 200 "Comment deleted" ∧
      c ∉ (deleteComment comments requester cid).2 ∧
      (∀ l, listComments tickets (deleteComment comments requester cid).2
          c.ticketId = .ok 200 l → c ∉ l)) ∧
    ((∀ x ∈ pcs, x.id ≠ cid) →
      p14DeleteComment pcs requester cid = (.err 404 "Comment not found", pcs)) ∧
    (pc ∈ pcs → pc.id = cid → (∀ x ∈ pcs, x.id = cid → x = pc) →
      requester ≠ "" → pc.user ≠ requester →
      p14DeleteComment pcs requester cid = (.err 403 "Not authorized", pcs)) ∧
    (pc ∈ pcs → pc.id = cid → (∀ x ∈ pcs, x.id = cid → x = pc) →
      requester ≠ "" → pc.user = requester → pcs.Nodup →
      (p14DeleteComment pcs requester cid).1 = .ok 200 "Comment deleted" ∧
      pc ∉ (p14DeleteComment pcs requester cid).2) := by
  refine ⟨?_, ?_, ?_, ?_, ?_⟩
  · intro hnone
    have hf : comments.find? (fun x => x.id == cid && x.userId == requester)
        = none := by
      rw [List.find?_eq_none]
      intro x hx
      simpa using hnone x hx
    simp [deleteComment, hf]
  · intro huniq hc hid huid
    have hpt : (c.id == cid && c.userId == requester) = true := by
      simp [hid, huid]
    have huniqp : ∀ x ∈ comments,
        (x.id == cid && x.userId == requester) = true → x = c := by
      intro x hx hpx
      simp only [Bool.and_eq_true, beq_iff_eq] at hpx
      exact eq_of_uniqueCommentIds huniq hx hc (by rw [hpx.1, hid])
    have hf : comments.find? (fun x => x.id == cid && x.userId == requester)
        = some c := find_eq_some_of_unique hc hpt huniqp
    have hnotin : c ∉ (deleteComment comments requester cid).2 := by
      simp only [deleteComment, hf]
      refine not_mem_eraseP_of_unique (by simp [hid]) ?_
        (nodup_of_uniqueCommentIds huniq)
      intro x hx hpx
      exact eq_of_uniqueCommentIds huniq hx hc
        (by rw [beq_iff_eq] at hpx; rw [hpx, hid])
    refine ⟨by simp [deleteComment, hf], hnotin, ?_⟩
    intro l hl
    cases hft : tickets.find? (fun tk => tk.id == c.ticketId) with
    | none => simp [listComments, hft] at hl
    | some tk =>
      simp only [listComments, hft, ApiResponse.ok.injEq] at hl
      intro hcl
      rw [← hl.2] at hcl
      exact hnotin (List.mem_filter.1 (mem_sortLe.1 hcl)).1
  · intro hnone
    have hf : pcs.find? (fun x => x.id == cid) = none := by
      rw [List.find?_eq_none]
      intro x hx
      simpa using hnone x hx
    simp [p14DeleteComment, hf]
  · intro hpc hid huniqp hreq huser
    have hf : pcs.find? (fun x => x.id == cid) = some pc :=
      find_eq_some_of_unique hpc (by simp [hid])
        (fun x hx hpx => huniqp x hx (by simpa using hpx))
    simp [p14DeleteComment, hf, hreq, huser]
  · intro hpc hid huniqp hreq huser hnd
    have hf : pcs.find? (fun x => x.id == cid) = some pc :=
      find_eq_some_of_unique hpc (by simp [hid])
        (fun x hx hpx => huniqp x hx (by simpa using hpx))
    constructor
    · simp [p14DeleteComment, hf, hreq, huser]
    · simp only [p14DeleteComment, hf]
      rw [if_neg (by simpa using hreq), if_neg (by simp [huser])]
      exact not_mem_eraseP_of_unique (by simp [hid])
        (fun x hx hpx => huniqp x hx (by simpa using hpx)) hnd

/-- C2 witness: bob's delete of alice's comment and bob's delete of an
absent comment id get the identical backend 404 response; alice's own
delete succeeds and removes the comment; and in the alternative revision
bob's delete of alice's comment answers 403. -/
theorem C2_delete_comment_witness :
    (deleteComment [sampleBComment] "bob" "c1"
        = (.err 404 "Comment not found or unauthorized", [sampleBComment])) ∧
    (deleteComment [sampleBComment] "bob" "c9"
        = (.err 404 "Comment not found or unauthorized", [sampleBComment])) ∧
    ((deleteComment [sampleBComment] "alice" "c1").1 = .ok 200 "Comment deleted" ∧
      sampleBComment ∉ (deleteComment [sampleBComment] "alice" "c1").2) ∧
    (p14DeleteComment [samplePComment] "bob" "c1"
        = (.err 403 "Not authorized", [samplePComment])) :=
  ⟨(C2_delete_comment [] [sampleBComment] [] "bob" "c1" sampleBComment
      samplePComment).1 (by decide),
   (C2_delete_comment [] [sampleBComment] [] "bob" "c9" sampleBComment
      samplePComment).1 (by decide),
   (fun h => ⟨h.1, h.2.1⟩)
     ((C2_delete_comment [] [sampleBComment] [] "alice" "c1" sampleBComment
        samplePComment).2.1 (by simp [uniqueCommentIds]) (by simp) rfl rfl),
   (C2_delete_comment [] [] [samplePComment] "bob" "c1" sampleBComment
      samplePComment).2.2.2.1 (by simp) rfl (by decide) (by decide) (by decide)⟩

end Ticketing
